import Mathlib

/-!
Verification of the LED control core of mce-plugin-libhybris.

The development shallowly embeds the C sources:
  * `sysfs-led-util.c` / `sysfs-led-util.h` (integer scaling, gcd, roundup),
  * `sysfs-led-main.c` (logical led state, sanitization, style classification,
    ramp generators and the timer-sequenced state machine),
  * `plugin-api.c` (`mce_hybris_indicator_set_pattern` argument clamping).

C `int` values are modelled as `Int`; C division and modulo on `int`
(truncation towards zero) are modelled by `Int.tdiv` / `Int.tmod`.
Hardware accesses and glib timer operations are modelled as an emitted
list of `LedAction`s; glib timer ids (`guint`, 0 meaning "not armed") are
modelled as `Nat`, the id returned by `g_timeout_add` being a nonzero
parameter of the transition.  The C fields `on`/`off` of `led_state_t`
are called `on_ms`/`off_ms` here because `on` is a reserved word in Lean.
The floating point sine table fill of `sysfs_led_generate_ramp_half_sin`
is modelled by abstract sample functions `sinRise`/`sinFall` (one per
loop); the claims checked here do not depend on the sample values.
-/

/-! ## sysfs-led-util.h -/

/-- Clamp integer value to given range (`led_util_clamp`). -/
def led_util_clamp (v l h : Int) : Int :=
  if v < l then l else if v < h then v else h

/-- Translate integer value in range1 to range2 (`led_util_trans`). -/
def led_util_trans (v l1 h1 l2 h2 : Int) : Int :=
  let d1 := h1 - l1
  let d2 := h2 - l2
  led_util_clamp (l2 + (d2 * (v - l1) + d1.tdiv 2).tdiv d1) l2 h2

/-! ## sysfs-led-util.c -/

/-- Scale value from 0...255 to 0...max range (`led_util_scale_value`). -/
def led_util_scale_value (v maxv : Int) : Int :=
  if v > 0 then led_util_trans v 1 255 1 maxv else 0

/-- The euclidean loop `while( b ) t = a % b, a = b, b = t;` of
`led_util_gcd`.  At the loop entry both variables are non-negative, so the
loop is modelled on `Nat`. -/
def led_util_gcd_loop (a b : Nat) : Nat :=
  if h : b = 0 then a else led_util_gcd_loop b (a % b)
termination_by b
decreasing_by exact Nat.mod_lt a (Nat.pos_of_ne_zero h)

/-- Greatest common divisor of two integer numbers (`led_util_gcd`):
absolute values are taken, the pair is ordered so that `a >= b`, the
euclidean loop runs, and `a ?: 1` guards against returning zero. -/
def led_util_gcd (a b : Int) : Int :=
  let a2 := if a < 0 then -a else a
  let b2 := if b < 0 then -b else b
  let a3 := if a2 < b2 then b2 else a2
  let b3 := if a2 < b2 then a2 else b2
  let g := led_util_gcd_loop a3.toNat b3.toNat
  if g = 0 then 1 else (g : Int)

/-- Round up number to the next multiple of given step size
(`led_util_roundup`). -/
def led_util_roundup (val range : Int) : Int :=
  let extra := val.tmod range
  let extra2 := if extra ≠ 0 then range - extra else extra
  val + extra2

/-! ## plugin-api.c helper -/

/-- Clamp integer values to given range (`clamp_to_range` in
`plugin-api.c`): `val <= lo ? lo : val <= hi ? val : hi`. -/
def clamp_to_range (lo hi val : Int) : Int :=
  if val ≤ lo then lo else if val ≤ hi then val else hi

/-! ## sysfs-led-main.c: constants -/

/-- Questimate of the duration of the kernel delayed work [ms]. -/
def SYSFS_LED_KERNEL_DELAY : Int := 10

/-- Minimum delay between breathing steps [ms]. -/
def SYSFS_LED_STEP_DELAY : Int := 50

/-- Maximum number of breathing steps; rise and fall time combined. -/
def SYSFS_LED_MAX_STEPS : Int := 256

/-- Minimum number of breathing steps on rise/fall time. -/
def SYSFS_LED_MIN_STEPS : Int := 5

/-! ## sysfs-led-main.c: logical led state -/

/-- Led state (struct `led_state_t`); C fields `on`/`off` appear as
`on_ms`/`off_ms`. -/
structure led_state_t where
  r : Int
  g : Int
  b : Int
  on_ms : Int
  off_ms : Int
  level : Int
  breathe : Bool
deriving DecidableEq

/-- Test for led request blink/breathing timing equality
(`led_state_has_equal_timing`). -/
def led_state_has_equal_timing (self that : led_state_t) : Prop :=
  self.on_ms = that.on_ms ∧ self.off_ms = that.off_ms

instance (self that : led_state_t) :
    Decidable (led_state_has_equal_timing self that) := by
  unfold led_state_has_equal_timing; infer_instance

/-- Test for led request equality (`led_state_is_equal`): all seven fields
compared. -/
def led_state_is_equal (self that : led_state_t) : Prop :=
  self.r = that.r ∧ self.g = that.g ∧ self.b = that.b ∧
  self.on_ms = that.on_ms ∧ self.off_ms = that.off_ms ∧
  self.level = that.level ∧ self.breathe = that.breathe

instance (self that : led_state_t) :
    Decidable (led_state_is_equal self that) := by
  unfold led_state_is_equal; infer_instance

/-- Test for active led request (`led_state_has_color`). -/
def led_state_has_color (self : led_state_t) : Prop :=
  self.r > 0 ∨ self.g > 0 ∨ self.b > 0

instance (self : led_state_t) : Decidable (led_state_has_color self) := by
  unfold led_state_has_color; infer_instance

/-- Normalize/sanity check requested values (`led_state_sanitize`). -/
def led_state_sanitize (self : led_state_t) : led_state_t :=
  let min_period := SYSFS_LED_STEP_DELAY * SYSFS_LED_MIN_STEPS
  if ¬ led_state_has_color self then
    { self with on_ms := 0, off_ms := 0, breathe := false }
  else if self.on_ms ≤ 0 ∨ self.off_ms ≤ 0 then
    { self with on_ms := 0, off_ms := 0, breathe := false }
  else if self.on_ms < min_period ∨ self.off_ms < min_period then
    { self with breathe := false }
  else
    self

/-- Different styles of led patterns (enum `led_style_t`). -/
inductive led_style_t where
  | STYLE_OFF
  | STYLE_STATIC
  | STYLE_BLINK
  | STYLE_BREATH
deriving DecidableEq

/-- Evaluate request style (`led_state_get_style`). -/
def led_state_get_style (self : led_state_t) : led_style_t :=
  if ¬ led_state_has_color self then .STYLE_OFF
  else if self.on_ms ≤ 0 ∨ self.off_ms ≤ 0 then .STYLE_STATIC
  else if self.breathe then .STYLE_BREATH
  else .STYLE_BLINK

/-! ## Basic lemmas about the state model -/

theorem led_state_is_equal_iff (a b : led_state_t) :
    led_state_is_equal a b ↔ a = b := by
  cases a; cases b
  simp [led_state_is_equal]

/-- `led_state_sanitize` never changes the color or level fields. -/
theorem led_state_sanitize_color (s : led_state_t) :
    (led_state_sanitize s).r = s.r ∧ (led_state_sanitize s).g = s.g ∧
    (led_state_sanitize s).b = s.b ∧ (led_state_sanitize s).level = s.level := by
  simp only [led_state_sanitize]
  split_ifs <;> simp

/-- C1: after `led_state_sanitize`, (a) if none of r, g, b is positive then
the on and off periods are zero and breathing is off; (b) if there is color
but `on <= 0` or `off <= 0` then both periods are forced to 0 and breathing
is off; (c) if there is color and both periods are positive but either is
shorter than 250 ms (`SYSFS_LED_STEP_DELAY * SYSFS_LED_MIN_STEPS`), breathing
is forced off. -/
theorem led_state_sanitize_spec (s : led_state_t) :
    (¬ led_state_has_color s →
       (led_state_sanitize s).on_ms = 0 ∧ (led_state_sanitize s).off_ms = 0 ∧
       (led_state_sanitize s).breathe = false) ∧
    (led_state_has_color s → s.on_ms ≤ 0 ∨ s.off_ms ≤ 0 →
       (led_state_sanitize s).on_ms = 0 ∧ (led_state_sanitize s).off_ms = 0 ∧
       (led_state_sanitize s).breathe = false) ∧
    (led_state_has_color s → 0 < s.on_ms → 0 < s.off_ms →
       s.on_ms < 250 ∨ s.off_ms < 250 →
       (led_state_sanitize s).breathe = false) := by
  simp only [led_state_sanitize, SYSFS_LED_STEP_DELAY, SYSFS_LED_MIN_STEPS]
  refine ⟨fun h => ?_, fun h h2 => ?_, fun h h2 h3 h4 => ?_⟩ <;>
    split_ifs <;> simp_all

/-- C1 witness: concrete evaluations of the three sanitization branches. -/
theorem led_state_sanitize_spec_witness :
    ((led_state_sanitize ⟨0, 0, 0, 700, 700, 255, true⟩).on_ms = 0 ∧
     (led_state_sanitize ⟨0, 0, 0, 700, 700, 255, true⟩).off_ms = 0 ∧
     (led_state_sanitize ⟨0, 0, 0, 700, 700, 255, true⟩).breathe = false) ∧
    ((led_state_sanitize ⟨255, 0, 0, 100, 0, 255, true⟩).on_ms = 0 ∧
     (led_state_sanitize ⟨255, 0, 0, 100, 0, 255, true⟩).off_ms = 0 ∧
     (led_state_sanitize ⟨255, 0, 0, 100, 0, 255, true⟩).breathe = false) ∧
    (led_state_sanitize ⟨255, 0, 0, 100, 500, 255, true⟩).breathe = false := by
  refine ⟨(led_state_sanitize_spec _).1 (by decide),
          (led_state_sanitize_spec _).2.1 (by decide) (by decide),
          (led_state_sanitize_spec _).2.2 (by decide) (by decide) (by decide)
            (by decide)⟩

/-! ## C6: zero-preserving scaling -/

/-- C6: `led_util_scale_value` maps non-positive inputs (in particular 0)
to 0 for every `max`, and for positive input and positive `max` the result
is at least 1: scaling preserves the zero/nonzero nature of its input. -/
theorem led_util_scale_value_spec :
    (∀ maxv : Int, led_util_scale_value 0 maxv = 0) ∧
    (∀ v maxv : Int, v ≤ 0 → led_util_scale_value v maxv = 0) ∧
    (∀ v maxv : Int, 0 < v → 0 < maxv → 1 ≤ led_util_scale_value v maxv) := by
  refine ⟨fun maxv => by simp only [led_util_scale_value]; rw [if_neg (by omega)],
          fun v maxv hv => by
            simp only [led_util_scale_value]; rw [if_neg (by omega)],
          fun v maxv hv hm => ?_⟩
  simp only [led_util_scale_value, led_util_trans, led_util_clamp]
  split_ifs <;> omega

/-- C6 witness: concrete instances of the scaling properties. -/
theorem led_util_scale_value_spec_witness :
    led_util_scale_value 0 93 = 0 ∧
    led_util_scale_value (-7) 93 = 0 ∧
    1 ≤ led_util_scale_value 1 1 := by
  refine ⟨led_util_scale_value_spec.1 93,
          led_util_scale_value_spec.2.1 (-7) 93 (by decide),
          led_util_scale_value_spec.2.2 1 1 (by decide) (by decide)⟩

/-! ## C9: gcd -/

theorem led_util_gcd_loop_eq_gcd : ∀ b a : Nat, led_util_gcd_loop a b = Nat.gcd a b := by
  intro b
  induction b using Nat.strong_induction_on with
  | _ b ih =>
    intro a
    match b with
    | 0 => rw [led_util_gcd_loop]; simp
    | k + 1 =>
      rw [led_util_gcd_loop]
      simp only [Nat.succ_ne_zero, dite_false]
      rw [ih (a % (k + 1)) (Nat.mod_lt a (Nat.succ_pos k))]
      rw [Nat.gcd_comm (k + 1) (a % (k + 1)), ← Nat.gcd_rec, Nat.gcd_comm]

/-- The C idiom `a < 0 ? -a : a` is the (cast) absolute value. -/
theorem led_util_abs_eq (a : Int) :
    (if a < 0 then -a else a) = (a.natAbs : Int) := by
  split_ifs <;> omega

/-- Closed form of `led_util_gcd` in terms of `Nat.gcd` of absolute
values, with the zero guard made explicit. -/
theorem led_util_gcd_eq (a b : Int) :
    led_util_gcd a b =
      (if a = 0 ∧ b = 0 then 1 else (Nat.gcd a.natAbs b.natAbs : Int)) := by
  have hz : Nat.gcd a.natAbs b.natAbs = 0 ↔ (a = 0 ∧ b = 0) := by
    rw [Nat.gcd_eq_zero_iff]; omega
  by_cases hmn : (a.natAbs : Int) < (b.natAbs : Int)
  · simp only [led_util_gcd, led_util_abs_eq, if_pos hmn,
      led_util_gcd_loop_eq_gcd, Int.toNat_natCast]
    rw [Nat.gcd_comm b.natAbs a.natAbs]
    split_ifs with h1 h2 h2 <;> simp_all
  · simp only [led_util_gcd, led_util_abs_eq, if_neg hmn,
      led_util_gcd_loop_eq_gcd, Int.toNat_natCast]
    split_ifs with h1 h2 h2 <;> simp_all

/-- `led_util_gcd` never returns zero (it is positive). -/
theorem led_util_gcd_pos (a b : Int) : 0 < led_util_gcd a b := by
  rw [led_util_gcd_eq]
  split_ifs with h
  · decide
  · have : ¬ (a.natAbs = 0 ∧ b.natAbs = 0) := by
      intro hc; exact h ⟨by omega, by omega⟩
    have hg : 0 < Nat.gcd a.natAbs b.natAbs := by
      rcases Nat.eq_zero_or_pos (Nat.gcd a.natAbs b.natAbs) with h0 | h0
      · exact absurd (Nat.gcd_eq_zero_iff.mp h0) this
      · exact h0
    omega

/-- C9: `led_util_gcd` returns the greatest common divisor of the absolute
values of its arguments, except that it returns 1 (never 0) when both
arguments are 0; in particular `gcd 0 0 = 1`, `gcd 12 18 = 6` and
`gcd 7 0 = 7`. -/
theorem led_util_gcd_spec :
    (∀ a b : Int,
       led_util_gcd a b =
         (if a = 0 ∧ b = 0 then 1 else (Nat.gcd a.natAbs b.natAbs : Int)) ∧
       0 < led_util_gcd a b) ∧
    led_util_gcd 0 0 = 1 ∧ led_util_gcd 12 18 = 6 ∧ led_util_gcd 7 0 = 7 := by
  refine ⟨fun a b => ⟨led_util_gcd_eq a b, led_util_gcd_pos a b⟩, ?_, ?_, ?_⟩
  · rw [led_util_gcd_eq]; norm_num
  · rw [led_util_gcd_eq]; norm_num
  · rw [led_util_gcd_eq]; norm_num

/-! ## sysfs-led-main.c: led control backend capability -/

/-- Ramp types (`led_ramp_t` from `sysfs-led-main.h`). -/
inductive led_ramp_t where
  | LED_RAMP_DISABLED
  | LED_RAMP_HALF_SINE
  | LED_RAMP_HARD_STEP
deriving DecidableEq

/-- Backend capability flags of `led_control_t`.  The function pointers of
the C struct are hardware operations; they are modelled by the emitted
`LedAction` trace instead of by fields. -/
structure led_control_t where
  can_breathe : Bool
  breath_type : led_ramp_t
deriving DecidableEq

/-- Query if backend can support sw breathing (`led_control_can_breathe`). -/
def led_control_can_breathe (self : led_control_t) : Bool :=
  self.can_breathe

/-- Query type of sw breathing backend supports (`led_control_breath_type`):
`self->can_breathe ? self->breath_type : LED_RAMP_DISABLED`. -/
def led_control_breath_type (self : led_control_t) : led_ramp_t :=
  if self.can_breathe then self.breath_type else .LED_RAMP_DISABLED

/-! ## sysfs-led-main.c: breathing curve -/

/-- Currently used intensity curve for sw breathing (static struct
`sysfs_led_breathe`).  The 256-byte `value[]` array is modelled as the
list of bytes written by the most recent ramp generation. -/
structure sysfs_led_breathe_t where
  step : Nat
  steps : Nat
  delay : Int
  value : List Nat
deriving DecidableEq

/-- Generate half sine intensity curve (`sysfs_led_generate_ramp_half_sin`).
`sinRise i n` stands for the C byte `(uint8_t)(sinf(i*M_PI_2/n)*255.0f)`
and `sinFall i n` for `(uint8_t)(sinf(M_PI_2 + i*M_PI_2/n)*255.0f)`;
the division by `n` inside them is reached only when the corresponding
loop runs, i.e. when `n > 0`. -/
def sysfs_led_generate_ramp_half_sin (sinRise sinFall : Nat → Nat → Nat)
    (ms_on ms_off : Int) (br : sysfs_led_breathe_t) : sysfs_led_breathe_t :=
  let t := ms_on + ms_off
  let s0 := (t + SYSFS_LED_MAX_STEPS - 1).tdiv SYSFS_LED_MAX_STEPS
  let s := if s0 < SYSFS_LED_STEP_DELAY then SYSFS_LED_STEP_DELAY else s0
  let n := (t + s - 1).tdiv s
  let steps_on := (n * ms_on + t.tdiv 2).tdiv t
  let steps_off := n - steps_on
  let value :=
    (List.range steps_on.toNat).map (fun i => sinRise i steps_on.toNat) ++
    (List.range steps_off.toNat).map (fun i => sinFall i steps_off.toNat)
  { br with delay := s, steps := steps_on.toNat + steps_off.toNat,
            value := value }

/-- Generate hard step intensity curve
(`sysfs_led_generate_ramp_hard_step`).  The two `while` loops write `255`
for indices below `steps_on` and `0` for the remaining indices below
`steps_tot`. -/
def sysfs_led_generate_ramp_hard_step (ms_on ms_off : Int)
    (br : sysfs_led_breathe_t) : sysfs_led_breathe_t :=
  let ms_on := led_util_roundup ms_on 100
  let ms_off := led_util_roundup ms_off 100
  let ms_tot := ms_on + ms_off
  let ms_step0 := led_util_gcd ms_on ms_off
  let ms_step1 :=
    if ms_step0 < SYSFS_LED_STEP_DELAY then SYSFS_LED_STEP_DELAY else ms_step0
  let steps_tot1 := (ms_tot + ms_step1 - 1).tdiv ms_step1
  let steps_tot :=
    if steps_tot1 > SYSFS_LED_MAX_STEPS then SYSFS_LED_MAX_STEPS
    else steps_tot1
  let ms_step :=
    if steps_tot1 > SYSFS_LED_MAX_STEPS then
      let ms_step2 := (ms_tot + SYSFS_LED_MAX_STEPS - 1).tdiv SYSFS_LED_MAX_STEPS
      if ms_step2 < SYSFS_LED_STEP_DELAY then SYSFS_LED_STEP_DELAY else ms_step2
    else ms_step1
  let steps_on := (ms_on + ms_step - 1).tdiv ms_step
  let value :=
    (List.range (max steps_on.toNat steps_tot.toNat)).map
      (fun i => if i < steps_on.toNat then 255 else 0)
  { br with delay := ms_step, steps := steps_tot.toNat, value := value }

/-- Invalidate sw breathing intensity curve
(`sysfs_led_generate_ramp_dummy`): only `delay` and `steps` are reset. -/
def sysfs_led_generate_ramp_dummy (br : sysfs_led_breathe_t) :
    sysfs_led_breathe_t :=
  { br with delay := 0, steps := 0 }

/-- Generate intensity curve for use from breathing timer
(`sysfs_led_generate_ramp`): dispatch on the backend breath type. -/
def sysfs_led_generate_ramp (ctrl : led_control_t)
    (sinRise sinFall : Nat → Nat → Nat) (ms_on ms_off : Int)
    (br : sysfs_led_breathe_t) : sysfs_led_breathe_t :=
  match led_control_breath_type ctrl with
  | .LED_RAMP_HARD_STEP => sysfs_led_generate_ramp_hard_step ms_on ms_off br
  | .LED_RAMP_HALF_SINE =>
      sysfs_led_generate_ramp_half_sin sinRise sinFall ms_on ms_off br
  | .LED_RAMP_DISABLED => sysfs_led_generate_ramp_dummy br

/-! ## sysfs-led-main.c: state machine -/

/-- Which callback a scheduled timer will invoke. -/
inductive Callback where
  | stop_cb
  | step_cb
  | static_cb
deriving DecidableEq

/-- Observable effects of the state machine: hardware accesses
(`sysfs_led_set_rgb_blink` / `sysfs_led_set_rgb_value`) and glib timer
operations (`g_source_remove` / `g_timeout_add`). -/
inductive LedAction where
  | set_rgb_blink (ms_on ms_off : Int)
  | set_rgb_value (r g b : Int)
  | timer_cancel (id : Nat)
  | timer_add (delay : Int) (cb : Callback) (id : Nat)
deriving DecidableEq

/-- The mutable statics of `sysfs-led-main.c` that the state machine
reads and writes: `sysfs_led_curr`, `sysfs_led_breathe`,
`sysfs_led_stop_id`, `sysfs_led_step_id`, `sysfs_led_reset_blinking`. -/
structure SysState where
  curr : led_state_t
  breathe : sysfs_led_breathe_t
  stop_id : Nat
  step_id : Nat
  reset_blinking : Bool
deriving DecidableEq

/-- Initial values of the statics: invalid color forces the first change
to take effect; no timers armed. -/
def sysfs_led_initial : SysState :=
  { curr := { r := -1, g := -1, b := -1, on_ms := 0, off_ms := 0,
              breathe := false, level := 255 },
    breathe := { step := 0, steps := 0, delay := 0, value := [] },
    stop_id := 0,
    step_id := 0,
    reset_blinking := true }

/-- Timer callback for setting led (`sysfs_led_static_cb`): defensively
checks its timer id, clears it, scales the configured color by the
brightness level and writes blink timing and color.  The returned `Bool`
is the glib keep-alive result. -/
def sysfs_led_static_cb (s : SysState) : SysState × List LedAction × Bool :=
  if s.step_id = 0 then (s, [], false)
  else
    let s1 : SysState := { s with step_id := 0 }
    let r := led_util_scale_value s1.curr.r s1.curr.level
    let g := led_util_scale_value s1.curr.g s1.curr.level
    let b := led_util_scale_value s1.curr.b s1.curr.level
    (s1, [.set_rgb_blink s1.curr.on_ms s1.curr.off_ms, .set_rgb_value r g b],
     false)

/-- Timer callback for taking a led breathing step (`sysfs_led_step_cb`):
wraps the playback index, scales the configured color first by the
brightness level and then by the curve sample, writes the color and
advances the index.  Keep-alive is `step_id != 0`. -/
def sysfs_led_step_cb (s : SysState) : SysState × List LedAction × Bool :=
  if s.step_id = 0 then (s, [], false)
  else
    let st := if s.breathe.step ≥ s.breathe.steps then 0 else s.breathe.step
    let r := led_util_scale_value s.curr.r s.curr.level
    let g := led_util_scale_value s.curr.g s.curr.level
    let b := led_util_scale_value s.curr.b s.curr.level
    let v : Int := (s.breathe.value.getD st 0 : Nat)
    let r := led_util_scale_value r v
    let g := led_util_scale_value g v
    let b := led_util_scale_value b v
    ({ s with breathe := { s.breathe with step := st + 1 } },
     [.set_rgb_value r g b], true)

/-- Timer callback from stopping/restarting led (`sysfs_led_stop_cb`).
`stepId` is the (nonzero) id `g_timeout_add` returns when a follow-up
timer is armed. -/
def sysfs_led_stop_cb (stepId : Nat) (s : SysState) :
    SysState × List LedAction × Bool :=
  if s.stop_id = 0 then (s, [], false)
  else
    let s1 : SysState := { s with stop_id := 0 }
    let acts1 : List LedAction :=
      if s1.reset_blinking then [.set_rgb_blink 0 0] else []
    let p2 : SysState × List LedAction :=
      if ¬ led_state_has_color s1.curr then
        ({ s1 with reset_blinking := true }, [])
      else if s1.breathe.delay > 0 then
        ({ s1 with step_id := stepId },
         [.timer_add s1.breathe.delay .step_cb stepId])
      else
        ({ s1 with step_id := stepId },
         [.timer_add SYSFS_LED_KERNEL_DELAY .static_cb stepId])
    let p3 : SysState × List LedAction :=
      if p2.1.reset_blinking then
        ({ p2.1 with reset_blinking := false }, [.set_rgb_value 0 0 0])
      else (p2.1, [])
    (p3.1, acts1 ++ p2.2 ++ p3.2, false)

/-- The `restart` decision of `sysfs_led_start`: a settle-and-reprogram
cycle is needed unless the led keeps breathing with unchanged timing. -/
def sysfs_led_restart_needed (curr work : led_state_t) : Prop :=
  ¬ (led_state_get_style curr = .STYLE_BREATH ∧
     led_state_get_style work = .STYLE_BREATH ∧
     led_state_has_equal_timing curr work)

instance (curr work : led_state_t) :
    Decidable (sysfs_led_restart_needed curr work) := by
  unfold sysfs_led_restart_needed; infer_instance

/-- Start static/blinking/breathing led (`sysfs_led_start`).  `stopId` is
the (nonzero) id `g_timeout_add` returns if the settle timer is armed. -/
def sysfs_led_start (ctrl : led_control_t)
    (sinRise sinFall : Nat → Nat → Nat) (next : led_state_t)
    (stopId : Nat) (s : SysState) : SysState × List LedAction :=
  let work := led_state_sanitize next
  if led_state_is_equal s.curr work then (s, [])
  else
    let old_style := led_state_get_style s.curr
    let new_style := led_state_get_style work
    let step1 : Nat :=
      if led_state_is_equal { s.curr with level := work.level } work then
        s.breathe.step
      else 0
    let s1 : SysState :=
      { s with curr := work, breathe := { s.breathe with step := step1 } }
    if sysfs_led_restart_needed s.curr work then
      let cancelActs : List LedAction :=
        if s1.step_id ≠ 0 then [.timer_cancel s1.step_id] else []
      let s2 : SysState := { s1 with step_id := 0 }
      let br1 := { s2.breathe with delay := 0 }
      let br2 :=
        if new_style = .STYLE_BREATH then
          sysfs_led_generate_ramp ctrl sinRise sinFall work.on_ms work.off_ms br1
        else br1
      let s3 : SysState := { s2 with breathe := br2 }
      if s3.stop_id = 0 then
        ({ s3 with
             reset_blinking :=
               decide (old_style = .STYLE_BLINK ∨ new_style = .STYLE_BLINK),
             stop_id := stopId },
         cancelActs ++ [.timer_add SYSFS_LED_KERNEL_DELAY .stop_cb stopId])
      else (s3, cancelActs)
    else (s1, [])

/-- `sysfs_led_quit`: cancel timers, blink off, zero brightness.  (The
blocking `sysfs_led_wait_kernel` nanosleep and the closing of the sysfs
files have no counterpart in the model.) -/
def sysfs_led_quit (s : SysState) : SysState × List LedAction :=
  let p1 : SysState × List LedAction :=
    if s.step_id ≠ 0 then ({ s with step_id := 0 }, [.timer_cancel s.step_id])
    else (s, [])
  let p2 : SysState × List LedAction :=
    if p1.1.stop_id ≠ 0 then
      ({ p1.1 with stop_id := 0 }, [.timer_cancel p1.1.stop_id])
    else (p1.1, [])
  (p2.1, p1.2 ++ p2.2 ++ [.set_rgb_blink 0 0, .set_rgb_value 0 0 0])

/-- `sysfs_led_set_pattern`: merge requested color and timing into the
current state, call `sysfs_led_start`, return true. -/
def sysfs_led_set_pattern (ctrl : led_control_t)
    (sinRise sinFall : Nat → Nat → Nat) (r g b ms_on ms_off : Int)
    (stopId : Nat) (s : SysState) : SysState × List LedAction × Bool :=
  let req : led_state_t :=
    { s.curr with r := r, g := g, b := b, on_ms := ms_on, off_ms := ms_off }
  let p := sysfs_led_start ctrl sinRise sinFall req stopId s
  (p.1, p.2, true)

/-- `sysfs_led_can_breathe`. -/
def sysfs_led_can_breathe (ctrl : led_control_t) : Bool :=
  led_control_can_breathe ctrl

/-- `sysfs_led_set_breathing`: no-op if the backend cannot breathe. -/
def sysfs_led_set_breathing (ctrl : led_control_t)
    (sinRise sinFall : Nat → Nat → Nat) (enable : Bool) (stopId : Nat)
    (s : SysState) : SysState × List LedAction :=
  if sysfs_led_can_breathe ctrl then
    sysfs_led_start ctrl sinRise sinFall { s.curr with breathe := enable }
      stopId s
  else (s, [])

/-- `sysfs_led_set_brightness`. -/
def sysfs_led_set_brightness (ctrl : led_control_t)
    (sinRise sinFall : Nat → Nat → Nat) (level : Int) (stopId : Nat)
    (s : SysState) : SysState × List LedAction :=
  sysfs_led_start ctrl sinRise sinFall { s.curr with level := level } stopId s

/-- Clamping front end `mce_hybris_indicator_set_pattern` (`plugin-api.c`),
modelled in its sysfs configuration (`mce_hybris_indicator_uses_sysfs`):
periods are clamped to [0,60000] and zeroed when either is below 50,
colors are clamped to [0,255], then `sysfs_led_set_pattern` runs. -/
def mce_hybris_indicator_set_pattern (ctrl : led_control_t)
    (sinRise sinFall : Nat → Nat → Nat) (r g b ms_on ms_off : Int)
    (stopId : Nat) (s : SysState) : SysState × List LedAction × Bool :=
  let ms_on1 := clamp_to_range 0 60000 ms_on
  let ms_off1 := clamp_to_range 0 60000 ms_off
  let ms_on2 := if ms_on1 < 50 ∨ ms_off1 < 50 then 0 else ms_on1
  let ms_off2 := if ms_on1 < 50 ∨ ms_off1 < 50 then 0 else ms_off1
  let r1 := clamp_to_range 0 255 r
  let g1 := clamp_to_range 0 255 g
  let b1 := clamp_to_range 0 255 b
  sysfs_led_set_pattern ctrl sinRise sinFall r1 g1 b1 ms_on2 ms_off2 stopId s

/-! ## C2: no-op on equal state, idempotent set_pattern -/

/-- Re-requesting the same pattern on an already sanitized state sanitizes
to the same state: `led_state_sanitize` changes nothing when its argument
is a sanitized state whose color/timing fields are overwritten with the
very request they came from. -/
theorem led_state_sanitize_pattern_stable (c : led_state_t)
    (r g b ms_on ms_off : Int) :
    led_state_sanitize
      { led_state_sanitize
          { c with r := r, g := g, b := b, on_ms := ms_on, off_ms := ms_off }
        with r := r, g := g, b := b, on_ms := ms_on, off_ms := ms_off } =
      led_state_sanitize
        { c with r := r, g := g, b := b, on_ms := ms_on, off_ms := ms_off } := by
  cases c
  simp only [led_state_sanitize, led_state_has_color,
    SYSFS_LED_STEP_DELAY, SYSFS_LED_MIN_STEPS]
  split_ifs <;> simp_all

/-- Whatever path `sysfs_led_start` takes, afterwards the stored current
state is the sanitized request. -/
theorem sysfs_led_start_curr (ctrl : led_control_t)
    (sinRise sinFall : Nat → Nat → Nat) (next : led_state_t) (stopId : Nat)
    (s : SysState) :
    (sysfs_led_start ctrl sinRise sinFall next stopId s).1.curr =
      led_state_sanitize next := by
  simp only [sysfs_led_start]
  split_ifs with h1 h2 h3 <;>
    simp_all [led_state_is_equal_iff]

/-- C2: if the sanitized request equals the current led state in every
field, `sysfs_led_start` changes nothing and emits no hardware write or
timer operation; consequently a second `sysfs_led_set_pattern` with
identical arguments is a complete no-op (it still returns true). -/
theorem sysfs_led_start_noop_spec :
    (∀ (ctrl : led_control_t) (sinRise sinFall : Nat → Nat → Nat)
       (next : led_state_t) (stopId : Nat) (s : SysState),
       led_state_is_equal s.curr (led_state_sanitize next) →
       sysfs_led_start ctrl sinRise sinFall next stopId s = (s, [])) ∧
    (∀ (ctrl : led_control_t) (sinRise sinFall : Nat → Nat → Nat)
       (r g b ms_on ms_off : Int) (stopId1 stopId2 : Nat) (s : SysState),
       sysfs_led_set_pattern ctrl sinRise sinFall r g b ms_on ms_off stopId2
           (sysfs_led_set_pattern ctrl sinRise sinFall r g b ms_on ms_off
              stopId1 s).1 =
         ((sysfs_led_set_pattern ctrl sinRise sinFall r g b ms_on ms_off
             stopId1 s).1, [], true)) := by
  have noop : ∀ (ctrl : led_control_t) (sinRise sinFall : Nat → Nat → Nat)
      (next : led_state_t) (stopId : Nat) (s : SysState),
      led_state_is_equal s.curr (led_state_sanitize next) →
      sysfs_led_start ctrl sinRise sinFall next stopId s = (s, []) := by
    intro ctrl sinRise sinFall next stopId s h
    simp only [sysfs_led_start]
    rw [if_pos h]
  refine ⟨noop, ?_⟩
  intro ctrl sinRise sinFall r g b ms_on ms_off stopId1 stopId2 s
  have hcurr : (sysfs_led_set_pattern ctrl sinRise sinFall r g b ms_on ms_off
      stopId1 s).1.curr =
      led_state_sanitize
        { s.curr with r := r, g := g, b := b, on_ms := ms_on,
                      off_ms := ms_off } := by
    simp only [sysfs_led_set_pattern]
    exact sysfs_led_start_curr ctrl sinRise sinFall _ stopId1 s
  have heq : led_state_is_equal
      (sysfs_led_set_pattern ctrl sinRise sinFall r g b ms_on ms_off
        stopId1 s).1.curr
      (led_state_sanitize
        { (sysfs_led_set_pattern ctrl sinRise sinFall r g b ms_on ms_off
            stopId1 s).1.curr
          with r := r, g := g, b := b, on_ms := ms_on, off_ms := ms_off }) := by
    rw [led_state_is_equal_iff, hcurr, led_state_sanitize_pattern_stable]
  have := noop ctrl sinRise sinFall
    { (sysfs_led_set_pattern ctrl sinRise sinFall r g b ms_on ms_off
        stopId1 s).1.curr
      with r := r, g := g, b := b, on_ms := ms_on, off_ms := ms_off }
    stopId2
    (sysfs_led_set_pattern ctrl sinRise sinFall r g b ms_on ms_off stopId1 s).1
    heq
  simp only [sysfs_led_set_pattern] at this ⊢
  rw [this]

/-- C2 witness: on the initial state, re-requesting the current state is a
no-op, and a doubled `set_pattern` call concretely changes nothing the
second time. -/
theorem sysfs_led_start_noop_spec_witness :
    sysfs_led_start ⟨true, .LED_RAMP_HALF_SINE⟩ (fun _ _ => 0) (fun _ _ => 0)
        sysfs_led_initial.curr 1 sysfs_led_initial =
      (sysfs_led_initial, []) :=
  sysfs_led_start_noop_spec.1 ⟨true, .LED_RAMP_HALF_SINE⟩ (fun _ _ => 0)
    (fun _ _ => 0) sysfs_led_initial.curr 1 sysfs_led_initial (by decide)

/-! ## C3: the restart decision -/

/-- C3: on a state-changing call, `restart` is false exactly when both the
current and the sanitized next state have style `STYLE_BREATH` with equal
on/off periods; whenever restart is needed the breathing-step timer ends
up cancelled (step id cleared, with a cancel operation emitted if one was
armed) and a settle (stop) timer is scheduled if none is pending (a
pending one is left untouched). -/
theorem sysfs_led_start_restart_spec (ctrl : led_control_t)
    (sinRise sinFall : Nat → Nat → Nat) (next : led_state_t) (stopId : Nat)
    (s : SysState)
    (hch : ¬ led_state_is_equal s.curr (led_state_sanitize next)) :
    ((¬ sysfs_led_restart_needed s.curr (led_state_sanitize next)) ↔
       (led_state_get_style s.curr = .STYLE_BREATH ∧
        led_state_get_style (led_state_sanitize next) = .STYLE_BREATH ∧
        s.curr.on_ms = (led_state_sanitize next).on_ms ∧
        s.curr.off_ms = (led_state_sanitize next).off_ms)) ∧
    (sysfs_led_restart_needed s.curr (led_state_sanitize next) →
       (sysfs_led_start ctrl sinRise sinFall next stopId s).1.step_id = 0 ∧
       (s.step_id ≠ 0 →
          LedAction.timer_cancel s.step_id ∈
            (sysfs_led_start ctrl sinRise sinFall next stopId s).2) ∧
       (s.stop_id = 0 →
          (sysfs_led_start ctrl sinRise sinFall next stopId s).1.stop_id =
            stopId ∧
          LedAction.timer_add SYSFS_LED_KERNEL_DELAY .stop_cb stopId ∈
            (sysfs_led_start ctrl sinRise sinFall next stopId s).2) ∧
       (s.stop_id ≠ 0 →
          (sysfs_led_start ctrl sinRise sinFall next stopId s).1.stop_id =
            s.stop_id)) := by
  constructor
  · simp only [sysfs_led_restart_needed, led_state_has_equal_timing, not_not]
  · intro hr
    simp only [sysfs_led_start]
    rw [if_neg hch, if_pos hr]
    by_cases hstop : s.stop_id = 0 <;>
      by_cases hstep : s.step_id = 0 <;>
      simp_all

/-- C3 witness: turning the initially black led red is a state-changing
call that needs a restart; the settle timer gets armed with the fresh id. -/
theorem sysfs_led_start_restart_spec_witness :
    ((¬ sysfs_led_restart_needed sysfs_led_initial.curr
        (led_state_sanitize ⟨255, 0, 0, 0, 0, 255, false⟩)) ↔
       (led_state_get_style sysfs_led_initial.curr = .STYLE_BREATH ∧
        led_state_get_style
          (led_state_sanitize ⟨255, 0, 0, 0, 0, 255, false⟩) = .STYLE_BREATH ∧
        sysfs_led_initial.curr.on_ms =
          (led_state_sanitize ⟨255, 0, 0, 0, 0, 255, false⟩).on_ms ∧
        sysfs_led_initial.curr.off_ms =
          (led_state_sanitize ⟨255, 0, 0, 0, 0, 255, false⟩).off_ms)) ∧
    (sysfs_led_restart_needed sysfs_led_initial.curr
       (led_state_sanitize ⟨255, 0, 0, 0, 0, 255, false⟩) →
       (sysfs_led_start ⟨true, .LED_RAMP_HALF_SINE⟩ (fun _ _ => 0)
           (fun _ _ => 0) ⟨255, 0, 0, 0, 0, 255, false⟩ 7
           sysfs_led_initial).1.step_id = 0 ∧
       (sysfs_led_initial.step_id ≠ 0 →
          LedAction.timer_cancel sysfs_led_initial.step_id ∈
            (sysfs_led_start ⟨true, .LED_RAMP_HALF_SINE⟩ (fun _ _ => 0)
               (fun _ _ => 0) ⟨255, 0, 0, 0, 0, 255, false⟩ 7
               sysfs_led_initial).2) ∧
       (sysfs_led_initial.stop_id = 0 →
          (sysfs_led_start ⟨true, .LED_RAMP_HALF_SINE⟩ (fun _ _ => 0)
              (fun _ _ => 0) ⟨255, 0, 0, 0, 0, 255, false⟩ 7
              sysfs_led_initial).1.stop_id = 7 ∧
          LedAction.timer_add SYSFS_LED_KERNEL_DELAY .stop_cb 7 ∈
            (sysfs_led_start ⟨true, .LED_RAMP_HALF_SINE⟩ (fun _ _ => 0)
               (fun _ _ => 0) ⟨255, 0, 0, 0, 0, 255, false⟩ 7
               sysfs_led_initial).2) ∧
       (sysfs_led_initial.stop_id ≠ 0 →
          (sysfs_led_start ⟨true, .LED_RAMP_HALF_SINE⟩ (fun _ _ => 0)
              (fun _ _ => 0) ⟨255, 0, 0, 0, 0, 255, false⟩ 7
              sysfs_led_initial).1.stop_id = sysfs_led_initial.stop_id)) :=
  sysfs_led_start_restart_spec ⟨true, .LED_RAMP_HALF_SINE⟩ (fun _ _ => 0)
    (fun _ _ => 0) ⟨255, 0, 0, 0, 0, 255, false⟩ 7 sysfs_led_initial
    (by decide)

/-! ## C4: level update and ramp phase -/

/-- Ramp regeneration never touches the playback index `step`. -/
theorem sysfs_led_generate_ramp_step (ctrl : led_control_t)
    (sinRise sinFall : Nat → Nat → Nat) (ms_on ms_off : Int)
    (br : sysfs_led_breathe_t) :
    (sysfs_led_generate_ramp ctrl sinRise sinFall ms_on ms_off br).step =
      br.step := by
  unfold sysfs_led_generate_ramp
  split <;>
    simp [sysfs_led_generate_ramp_dummy, sysfs_led_generate_ramp_half_sin,
      sysfs_led_generate_ramp_hard_step]

/-- C4: on every state-changing call, `sysfs_led_start` commits the new
brightness level, and the ramp playback index is reset to 0 exactly when
some field other than `level` changed (otherwise it is left alone);
moreover, if the call needs no restart (continued breathing with equal
timing) the step timer, ramp delay and ramp samples survive untouched and
nothing is emitted, and every breathing step scales the configured color
first by the stored brightness level and then by the current curve
sample. -/
theorem sysfs_led_start_level_phase_spec (ctrl : led_control_t)
    (sinRise sinFall : Nat → Nat → Nat) (next : led_state_t) (stopId : Nat)
    (s : SysState)
    (hch : ¬ led_state_is_equal s.curr (led_state_sanitize next)) :
    (sysfs_led_start ctrl sinRise sinFall next stopId s).1.curr.level =
      (led_state_sanitize next).level ∧
    (sysfs_led_start ctrl sinRise sinFall next stopId s).1.breathe.step =
      (if led_state_is_equal
            { s.curr with level := (led_state_sanitize next).level }
            (led_state_sanitize next)
       then s.breathe.step else 0) ∧
    (¬ sysfs_led_restart_needed s.curr (led_state_sanitize next) →
       (sysfs_led_start ctrl sinRise sinFall next stopId s).1.step_id =
         s.step_id ∧
       (sysfs_led_start ctrl sinRise sinFall next stopId s).1.breathe.delay =
         s.breathe.delay ∧
       (sysfs_led_start ctrl sinRise sinFall next stopId s).1.breathe.value =
         s.breathe.value ∧
       (sysfs_led_start ctrl sinRise sinFall next stopId s).2 = []) ∧
    (∀ q : SysState, q.step_id ≠ 0 →
       (sysfs_led_step_cb q).2.1 =
         [.set_rgb_value
            (led_util_scale_value (led_util_scale_value q.curr.r q.curr.level)
               (q.breathe.value.getD
                  (if q.breathe.step ≥ q.breathe.steps then 0
                   else q.breathe.step) 0))
            (led_util_scale_value (led_util_scale_value q.curr.g q.curr.level)
               (q.breathe.value.getD
                  (if q.breathe.step ≥ q.breathe.steps then 0
                   else q.breathe.step) 0))
            (led_util_scale_value (led_util_scale_value q.curr.b q.curr.level)
               (q.breathe.value.getD
                  (if q.breathe.step ≥ q.breathe.steps then 0
                   else q.breathe.step) 0))]) := by
  refine ⟨?_, ?_, ?_, ?_⟩
  · rw [sysfs_led_start_curr]
  · simp only [sysfs_led_start]
    rw [if_neg hch]
    by_cases hr : sysfs_led_restart_needed s.curr (led_state_sanitize next)
    · rw [if_pos hr]
      split_ifs <;> simp [sysfs_led_generate_ramp_step]
    · rw [if_neg hr]
  · intro hr
    simp only [sysfs_led_start]
    rw [if_neg hch, if_neg hr]
    exact ⟨rfl, rfl, rfl, rfl⟩
  · intro q hq
    simp only [sysfs_led_step_cb]
    rw [if_neg hq]

/-- C4 witness: while breathing red at level 100 (step timer armed, ramp
index 3), requesting only a brightness change to level 200 is
state-changing; the theorem applies at this concrete input. -/
theorem sysfs_led_start_level_phase_spec_witness :
    (sysfs_led_start ⟨true, .LED_RAMP_HALF_SINE⟩ (fun _ _ => 0)
        (fun _ _ => 0) ⟨255, 0, 0, 1000, 1000, 200, true⟩ 9
        ⟨⟨255, 0, 0, 1000, 1000, 100, true⟩,
         ⟨3, 10, 50, List.replicate 10 128⟩, 0, 4, false⟩).1.curr.level =
      (led_state_sanitize ⟨255, 0, 0, 1000, 1000, 200, true⟩).level ∧
    (sysfs_led_start ⟨true, .LED_RAMP_HALF_SINE⟩ (fun _ _ => 0)
        (fun _ _ => 0) ⟨255, 0, 0, 1000, 1000, 200, true⟩ 9
        ⟨⟨255, 0, 0, 1000, 1000, 100, true⟩,
         ⟨3, 10, 50, List.replicate 10 128⟩, 0, 4, false⟩).1.breathe.step =
      (if led_state_is_equal
            { (⟨⟨255, 0, 0, 1000, 1000, 100, true⟩,
                ⟨3, 10, 50, List.replicate 10 128⟩, 0, 4,
                false⟩ : SysState).curr with
              level := (led_state_sanitize
                  ⟨255, 0, 0, 1000, 1000, 200, true⟩).level }
            (led_state_sanitize ⟨255, 0, 0, 1000, 1000, 200, true⟩)
       then (⟨⟨255, 0, 0, 1000, 1000, 100, true⟩,
              ⟨3, 10, 50, List.replicate 10 128⟩, 0, 4,
              false⟩ : SysState).breathe.step
       else 0) ∧
    (¬ sysfs_led_restart_needed
        (⟨⟨255, 0, 0, 1000, 1000, 100, true⟩,
          ⟨3, 10, 50, List.replicate 10 128⟩, 0, 4, false⟩ : SysState).curr
        (led_state_sanitize ⟨255, 0, 0, 1000, 1000, 200, true⟩) →
       (sysfs_led_start ⟨true, .LED_RAMP_HALF_SINE⟩ (fun _ _ => 0)
           (fun _ _ => 0) ⟨255, 0, 0, 1000, 1000, 200, true⟩ 9
           ⟨⟨255, 0, 0, 1000, 1000, 100, true⟩,
            ⟨3, 10, 50, List.replicate 10 128⟩, 0, 4,
            false⟩).1.step_id = 4 ∧
       (sysfs_led_start ⟨true, .LED_RAMP_HALF_SINE⟩ (fun _ _ => 0)
           (fun _ _ => 0) ⟨255, 0, 0, 1000, 1000, 200, true⟩ 9
           ⟨⟨255, 0, 0, 1000, 1000, 100, true⟩,
            ⟨3, 10, 50, List.replicate 10 128⟩, 0, 4,
            false⟩).1.breathe.delay = 50 ∧
       (sysfs_led_start ⟨true, .LED_RAMP_HALF_SINE⟩ (fun _ _ => 0)
           (fun _ _ => 0) ⟨255, 0, 0, 1000, 1000, 200, true⟩ 9
           ⟨⟨255, 0, 0, 1000, 1000, 100, true⟩,
            ⟨3, 10, 50, List.replicate 10 128⟩, 0, 4,
            false⟩).1.breathe.value = List.replicate 10 128 ∧
       (sysfs_led_start ⟨true, .LED_RAMP_HALF_SINE⟩ (fun _ _ => 0)
           (fun _ _ => 0) ⟨255, 0, 0, 1000, 1000, 200, true⟩ 9
           ⟨⟨255, 0, 0, 1000, 1000, 100, true⟩,
            ⟨3, 10, 50, List.replicate 10 128⟩, 0, 4, false⟩).2 = []) ∧
    (∀ q : SysState, q.step_id ≠ 0 →
       (sysfs_led_step_cb q).2.1 =
         [.set_rgb_value
            (led_util_scale_value (led_util_scale_value q.curr.r q.curr.level)
               (q.breathe.value.getD
                  (if q.breathe.step ≥ q.breathe.steps then 0
                   else q.breathe.step) 0))
            (led_util_scale_value (led_util_scale_value q.curr.g q.curr.level)
               (q.breathe.value.getD
                  (if q.breathe.step ≥ q.breathe.steps then 0
                   else q.breathe.step) 0))
            (led_util_scale_value (led_util_scale_value q.curr.b q.curr.level)
               (q.breathe.value.getD
                  (if q.breathe.step ≥ q.breathe.steps then 0
                   else q.breathe.step) 0))]) :=
  sysfs_led_start_level_phase_spec ⟨true, .LED_RAMP_HALF_SINE⟩
    (fun _ _ => 0) (fun _ _ => 0) ⟨255, 0, 0, 1000, 1000, 200, true⟩ 9
    ⟨⟨255, 0, 0, 1000, 1000, 100, true⟩, ⟨3, 10, 50, List.replicate 10 128⟩,
     0, 4, false⟩ (by decide)

/-! ## C5: timer exclusion invariant -/

/-- States of the led subsystem reachable from the static initializers
through the operations of `sysfs-led-main.c`.  The public entry points
`sysfs_led_set_pattern`, `sysfs_led_set_breathing`, `sysfs_led_set_brightness`
and `sysfs_led_init` all mutate state through `sysfs_led_start` only, and
timers fire their callbacks; `g_timeout_add` ids are nonzero. -/
inductive Reachable : SysState → Prop where
  | init : Reachable sysfs_led_initial
  | start (ctrl : led_control_t) (sinRise sinFall : Nat → Nat → Nat)
      (next : led_state_t) (stopId : Nat) (s : SysState) :
      stopId ≠ 0 → Reachable s →
      Reachable (sysfs_led_start ctrl sinRise sinFall next stopId s).1
  | set_pattern (ctrl : led_control_t) (sinRise sinFall : Nat → Nat → Nat)
      (r g b ms_on ms_off : Int) (stopId : Nat) (s : SysState) :
      stopId ≠ 0 → Reachable s →
      Reachable
        (sysfs_led_set_pattern ctrl sinRise sinFall r g b ms_on ms_off
          stopId s).1
  | set_breathing (ctrl : led_control_t) (sinRise sinFall : Nat → Nat → Nat)
      (enable : Bool) (stopId : Nat) (s : SysState) :
      stopId ≠ 0 → Reachable s →
      Reachable (sysfs_led_set_breathing ctrl sinRise sinFall enable stopId s).1
  | set_brightness (ctrl : led_control_t) (sinRise sinFall : Nat → Nat → Nat)
      (level : Int) (stopId : Nat) (s : SysState) :
      stopId ≠ 0 → Reachable s →
      Reachable (sysfs_led_set_brightness ctrl sinRise sinFall level stopId s).1
  | stop_cb (stepId : Nat) (s : SysState) : stepId ≠ 0 → Reachable s →
      Reachable (sysfs_led_stop_cb stepId s).1
  | step_cb (s : SysState) : Reachable s → Reachable (sysfs_led_step_cb s).1
  | static_cb (s : SysState) : Reachable s →
      Reachable (sysfs_led_static_cb s).1
  | quit (s : SysState) : Reachable s → Reachable (sysfs_led_quit s).1

/-- `sysfs_led_start` either clears the step timer id (restart path) or
leaves both timer ids untouched. -/
theorem sysfs_led_start_ids (ctrl : led_control_t)
    (sinRise sinFall : Nat → Nat → Nat) (next : led_state_t) (stopId : Nat)
    (s : SysState) :
    ((sysfs_led_start ctrl sinRise sinFall next stopId s).1.step_id = 0) ∨
    ((sysfs_led_start ctrl sinRise sinFall next stopId s).1.step_id =
        s.step_id ∧
     (sysfs_led_start ctrl sinRise sinFall next stopId s).1.stop_id =
        s.stop_id) := by
  simp only [sysfs_led_start]
  split_ifs <;> simp

/-- `sysfs_led_stop_cb` either clears the stop timer id (the path that may
arm a follow-up timer) or leaves both timer ids untouched. -/
theorem sysfs_led_stop_cb_ids (stepId : Nat) (s : SysState) :
    ((sysfs_led_stop_cb stepId s).1.stop_id = 0) ∨
    ((sysfs_led_stop_cb stepId s).1.step_id = s.step_id ∧
     (sysfs_led_stop_cb stepId s).1.stop_id = s.stop_id) := by
  simp only [sysfs_led_stop_cb]
  split_ifs <;> simp

/-- `sysfs_led_step_cb` leaves both timer ids untouched. -/
theorem sysfs_led_step_cb_ids (s : SysState) :
    (sysfs_led_step_cb s).1.step_id = s.step_id ∧
    (sysfs_led_step_cb s).1.stop_id = s.stop_id := by
  simp only [sysfs_led_step_cb]
  split_ifs <;> simp

/-- `sysfs_led_static_cb` clears the step timer id and leaves the stop
timer id untouched. -/
theorem sysfs_led_static_cb_ids (s : SysState) :
    (sysfs_led_static_cb s).1.step_id = 0 ∧
    (sysfs_led_static_cb s).1.stop_id = s.stop_id := by
  simp only [sysfs_led_static_cb]
  split_ifs <;> simp_all

/-- `sysfs_led_quit` clears both timer ids. -/
theorem sysfs_led_quit_ids (s : SysState) :
    (sysfs_led_quit s).1.step_id = 0 ∧ (sysfs_led_quit s).1.stop_id = 0 := by
  simp only [sysfs_led_quit]
  split_ifs <;> simp_all

/-- C5: in every reachable state at most one of the settle (stop) timer
and the breathing-step/static-apply timer is armed; moreover
`sysfs_led_start` never arms the step timer (it can only clear it), and
whenever `sysfs_led_stop_cb` changes the step timer id (i.e. arms the
breathing-step or static-apply timer) it has already cleared the settle
timer id. -/
theorem sysfs_led_timer_exclusion_spec :
    (∀ s : SysState, Reachable s → s.step_id = 0 ∨ s.stop_id = 0) ∧
    (∀ (ctrl : led_control_t) (sinRise sinFall : Nat → Nat → Nat)
       (next : led_state_t) (stopId : Nat) (s : SysState),
       (sysfs_led_start ctrl sinRise sinFall next stopId s).1.step_id = 0 ∨
       (sysfs_led_start ctrl sinRise sinFall next stopId s).1.step_id =
         s.step_id) ∧
    (∀ (stepId : Nat) (s : SysState),
       (sysfs_led_stop_cb stepId s).1.step_id ≠ s.step_id →
       (sysfs_led_stop_cb stepId s).1.stop_id = 0) := by
  refine ⟨?_, ?_, ?_⟩
  · intro s h
    induction h with
    | init => simp [sysfs_led_initial]
    | start ctrl sinRise sinFall next stopId s hid hs ih =>
        rcases sysfs_led_start_ids ctrl sinRise sinFall next stopId s with
          h | ⟨h1, h2⟩
        · exact Or.inl h
        · rw [h1, h2]; exact ih
    | set_pattern ctrl sinRise sinFall r g b ms_on ms_off stopId s hid hs ih =>
        simp only [sysfs_led_set_pattern]
        rcases sysfs_led_start_ids ctrl sinRise sinFall _ stopId s with
          h | ⟨h1, h2⟩
        · exact Or.inl h
        · rw [h1, h2]; exact ih
    | set_breathing ctrl sinRise sinFall enable stopId s hid hs ih =>
        simp only [sysfs_led_set_breathing]
        split_ifs
        · rcases sysfs_led_start_ids ctrl sinRise sinFall _ stopId s with
            h | ⟨h1, h2⟩
          · exact Or.inl h
          · rw [h1, h2]; exact ih
        · exact ih
    | set_brightness ctrl sinRise sinFall level stopId s hid hs ih =>
        simp only [sysfs_led_set_brightness]
        rcases sysfs_led_start_ids ctrl sinRise sinFall _ stopId s with
          h | ⟨h1, h2⟩
        · exact Or.inl h
        · rw [h1, h2]; exact ih
    | stop_cb stepId s hid hs ih =>
        rcases sysfs_led_stop_cb_ids stepId s with h | ⟨h1, h2⟩
        · exact Or.inr h
        · rw [h1, h2]; exact ih
    | step_cb s hs ih =>
        rw [(sysfs_led_step_cb_ids s).1, (sysfs_led_step_cb_ids s).2]
        exact ih
    | static_cb s hs ih =>
        exact Or.inl (sysfs_led_static_cb_ids s).1
    | quit s hs ih =>
        exact Or.inl (sysfs_led_quit_ids s).1
  · intro ctrl sinRise sinFall next stopId s
    rcases sysfs_led_start_ids ctrl sinRise sinFall next stopId s with
      h | ⟨h1, _⟩
    · exact Or.inl h
    · exact Or.inr h1
  · intro stepId s h
    rcases sysfs_led_stop_cb_ids stepId s with h0 | ⟨h1, _⟩
    · exact h0
    · exact absurd h1 h

/-- C5 witness: the invariant holds in the initial state, the start
transition on a concrete input arms nothing, and a concrete settle-timer
expiry that arms the static-apply timer has cleared the settle id. -/
theorem sysfs_led_timer_exclusion_spec_witness :
    (sysfs_led_initial.step_id = 0 ∨ sysfs_led_initial.stop_id = 0) ∧
    ((sysfs_led_start ⟨true, .LED_RAMP_HALF_SINE⟩ (fun _ _ => 0)
         (fun _ _ => 0) ⟨255, 0, 0, 0, 0, 255, false⟩ 7
         sysfs_led_initial).1.step_id = 0 ∨
     (sysfs_led_start ⟨true, .LED_RAMP_HALF_SINE⟩ (fun _ _ => 0)
         (fun _ _ => 0) ⟨255, 0, 0, 0, 0, 255, false⟩ 7
         sysfs_led_initial).1.step_id = sysfs_led_initial.step_id) ∧
    (sysfs_led_stop_cb 3
        ⟨⟨255, 0, 0, 0, 0, 255, false⟩, ⟨0, 0, 0, []⟩, 5, 0,
         false⟩).1.stop_id = 0 :=
  ⟨sysfs_led_timer_exclusion_spec.1 sysfs_led_initial Reachable.init,
   sysfs_led_timer_exclusion_spec.2.1 ⟨true, .LED_RAMP_HALF_SINE⟩
     (fun _ _ => 0) (fun _ _ => 0) ⟨255, 0, 0, 0, 0, 255, false⟩ 7
     sysfs_led_initial,
   sysfs_led_timer_exclusion_spec.2.2 3
     ⟨⟨255, 0, 0, 0, 0, 255, false⟩, ⟨0, 0, 0, []⟩, 5, 0, false⟩
     (by decide)⟩

/-! ## C7: set_pattern clamping front end -/

/-- C7: `mce_hybris_indicator_set_pattern` (sysfs configuration) returns
true for every integer input; the values it hands to the led state are the
r/g/b arguments clamped to [0,255] and the periods clamped to [0,60000],
with both periods zeroed whenever either clamped period is below 50 ms.
`clamp_to_range` really lands in the requested interval. -/
theorem mce_hybris_indicator_set_pattern_spec :
    (∀ (ctrl : led_control_t) (sinRise sinFall : Nat → Nat → Nat)
       (r g b ms_on ms_off : Int) (stopId : Nat) (s : SysState),
       (mce_hybris_indicator_set_pattern ctrl sinRise sinFall r g b ms_on
           ms_off stopId s).2.2 = true) ∧
    (∀ v : Int, 0 ≤ clamp_to_range 0 255 v ∧ clamp_to_range 0 255 v ≤ 255) ∧
    (∀ v : Int,
       0 ≤ clamp_to_range 0 60000 v ∧ clamp_to_range 0 60000 v ≤ 60000) ∧
    (∀ (ctrl : led_control_t) (sinRise sinFall : Nat → Nat → Nat)
       (r g b ms_on ms_off : Int) (stopId : Nat) (s : SysState),
       mce_hybris_indicator_set_pattern ctrl sinRise sinFall r g b ms_on
           ms_off stopId s =
         sysfs_led_set_pattern ctrl sinRise sinFall
           (clamp_to_range 0 255 r) (clamp_to_range 0 255 g)
           (clamp_to_range 0 255 b)
           (if clamp_to_range 0 60000 ms_on < 50 ∨
               clamp_to_range 0 60000 ms_off < 50
            then 0 else clamp_to_range 0 60000 ms_on)
           (if clamp_to_range 0 60000 ms_on < 50 ∨
               clamp_to_range 0 60000 ms_off < 50
            then 0 else clamp_to_range 0 60000 ms_off)
           stopId s) := by
  refine ⟨?_, ?_, ?_, ?_⟩
  · intro ctrl sinRise sinFall r g b ms_on ms_off stopId s
    simp [mce_hybris_indicator_set_pattern, sysfs_led_set_pattern]
  · intro v
    unfold clamp_to_range
    constructor <;> split_ifs <;> omega
  · intro v
    unfold clamp_to_range
    constructor <;> split_ifs <;> omega
  · intro ctrl sinRise sinFall r g b ms_on ms_off stopId s
    rfl

/-! ## Ceiling division helpers (C integer idiom `(a + b - 1) / b`) -/

theorem int_ceil_div_nonneg {a b : Int} (ha : 0 ≤ a) (hb : 0 < b) :
    0 ≤ (a + b - 1).tdiv b :=
  Int.tdiv_nonneg (by omega) (by omega)

theorem int_ceil_div_le {a b c : Int} (ha : 0 ≤ a) (hb : 0 < b)
    (h : a ≤ c * b) : (a + b - 1).tdiv b ≤ c := by
  rw [Int.tdiv_eq_ediv (by omega) (by omega)]
  have h2 : (a + b - 1) / b < c + 1 := by
    rw [Int.ediv_lt_iff_lt_mul hb]
    have e : (c + 1) * b = c * b + b := by ring
    omega
  omega

theorem int_le_mul_ceil_div {a b : Int} (ha : 0 ≤ a) (hb : 0 < b) :
    a ≤ ((a + b - 1).tdiv b) * b := by
  rw [Int.tdiv_eq_ediv (by omega) (by omega)]
  have h1 := Int.lt_ediv_add_one_mul_self (a + b - 1) hb
  have e : ((a + b - 1) / b + 1) * b = ((a + b - 1) / b) * b + b := by ring
  omega

theorem int_ceil_div_mono {a a' b : Int} (ha : 0 ≤ a) (hb : 0 < b)
    (h : a ≤ a') : (a + b - 1).tdiv b ≤ (a' + b - 1).tdiv b := by
  rw [Int.tdiv_eq_ediv (by omega) (by omega),
    Int.tdiv_eq_ediv (by omega) (by omega)]
  exact Int.ediv_le_ediv hb (by omega)

/-- The prefix-of-255s-then-0s shape produced by the two `while` loops of
the hard step generator. -/
theorem range_map_ite_replicate (k m : Nat) (h : k ≤ m) :
    (List.range m).map (fun i => if i < k then (255 : Nat) else 0) =
      List.replicate k 255 ++ List.replicate (m - k) 0 := by
  obtain ⟨d, rfl⟩ : ∃ d, m = k + d := ⟨m - k, by omega⟩
  rw [List.range_add, List.map_append, List.map_map]
  congr 1
  · rw [List.eq_replicate_iff]
    refine ⟨by simp, ?_⟩
    intro x hx
    simp only [List.mem_map, List.mem_range] at hx
    obtain ⟨i, hi, rfl⟩ := hx
    simp [hi]
  · rw [List.eq_replicate_iff]
    refine ⟨by simp, ?_⟩
    intro x hx
    simp only [List.mem_map, List.mem_range, Function.comp] at hx
    obtain ⟨i, hi, rfl⟩ := hx
    simp

/-- `led_util_roundup` really rounds a non-negative value up to the next
multiple of a positive step: the result is not below the input, less than
one full step above it, divisible by the step, and non-negative. -/
theorem led_util_roundup_spec (val range : Int) (hv : 0 ≤ val)
    (hr : 0 < range) :
    val ≤ led_util_roundup val range ∧
    led_util_roundup val range < val + range ∧
    (led_util_roundup val range).tmod range = 0 ∧
    0 ≤ led_util_roundup val range := by
  have hm := Int.emod_nonneg val (by omega : range ≠ 0)
  have hm2 := Int.emod_lt_of_pos val hr
  have hdef : val % range = val - range * (val / range) := Int.emod_def val range
  simp only [led_util_roundup, Int.tmod_eq_emod hv hr.le]
  by_cases h0 : val % range = 0
  · rw [if_neg (by omega : ¬ val % range ≠ 0)]
    refine ⟨by omega, by omega, ?_, by omega⟩
    rw [Int.tmod_eq_emod (by omega) hr.le]
    rw [h0, add_zero]
    exact h0
  · rw [if_pos h0]
    have hrep : val + (range - val % range) = range * (val / range + 1) := by
      rw [hdef]; ring
    refine ⟨by omega, by omega, ?_, by omega⟩
    rw [Int.tmod_eq_emod (by omega) hr.le, hrep, Int.mul_emod_right]

/-- Arithmetic facts about the half sine generator: for non-negative
periods with positive total, the step delay is at least 50 ms, at most
256 steps are recorded, and exactly `steps` samples are written. -/
theorem sysfs_led_generate_ramp_half_sin_bounds
    (sinRise sinFall : Nat → Nat → Nat) (ms_on ms_off : Int)
    (br : sysfs_led_breathe_t) (hon : 0 ≤ ms_on) (hoff : 0 ≤ ms_off)
    (hpos : 0 < ms_on + ms_off) :
    50 ≤ (sysfs_led_generate_ramp_half_sin sinRise sinFall ms_on ms_off
            br).delay ∧
    (sysfs_led_generate_ramp_half_sin sinRise sinFall ms_on ms_off
       br).steps ≤ 256 ∧
    (sysfs_led_generate_ramp_half_sin sinRise sinFall ms_on ms_off
       br).value.length =
      (sysfs_led_generate_ramp_half_sin sinRise sinFall ms_on ms_off
        br).steps := by
  simp only [sysfs_led_generate_ramp_half_sin, SYSFS_LED_MAX_STEPS,
    SYSFS_LED_STEP_DELAY, List.length_append, List.length_map,
    List.length_range]
  set t := ms_on + ms_off with ht
  set s0 := (t + 256 - 1).tdiv 256 with hs0
  set s := if s0 < 50 then (50 : Int) else s0 with hs
  set n := (t + s - 1).tdiv s with hn
  set son := (n * ms_on + t.tdiv 2).tdiv t with hson
  have hs0n : 0 ≤ s0 := int_ceil_div_nonneg (by omega) (by omega)
  have hs50 : 50 ≤ s := by rw [hs]; split_ifs <;> omega
  have hts0 : t ≤ s0 * 256 := int_le_mul_ceil_div (by omega) (by omega)
  have hs0s : s0 ≤ s := by rw [hs]; split_ifs <;> omega
  have hn256 : n ≤ 256 :=
    int_ceil_div_le (by omega) (by omega) (by omega : t ≤ 256 * s)
  have hn0 : 0 ≤ n := int_ceil_div_nonneg (by omega) (by omega)
  have h3 : 0 ≤ n * ms_on := mul_nonneg hn0 hon
  have h4 : 0 ≤ t.tdiv 2 := Int.tdiv_nonneg (by omega) (by omega)
  have hson0 : 0 ≤ son := Int.tdiv_nonneg (by omega) (by omega)
  have h5 : t.tdiv 2 = t / 2 := Int.tdiv_eq_ediv (by omega) (by omega)
  have h7 : n * ms_on ≤ n * t := mul_le_mul_of_nonneg_left (by omega) hn0
  have h8 : n * ms_on + t.tdiv 2 < (n + 1) * t := by
    have e : (n + 1) * t = n * t + t := by ring
    omega
  have h9 : (n * ms_on + t.tdiv 2).tdiv t < n + 1 := by
    rw [Int.tdiv_eq_ediv (by omega) (by omega),
      Int.ediv_lt_iff_lt_mul (by omega)]
    exact h8
  have hsonle : son ≤ n := by omega
  refine ⟨hs50, by omega, trivial⟩

/-- Arithmetic facts about the hard step generator, for non-negative
periods: the step delay is at least 50 ms and at least the (clamped) gcd
of the rounded-up periods, at most 256 steps are recorded, the first
`ceil(on/step)` samples are 255 and the remaining ones 0, and exactly
`steps` samples are written. -/
theorem sysfs_led_generate_ramp_hard_step_bounds (ms_on ms_off : Int)
    (br : sysfs_led_breathe_t) (hon : 0 ≤ ms_on) (hoff : 0 ≤ ms_off) :
    50 ≤ (sysfs_led_generate_ramp_hard_step ms_on ms_off br).delay ∧
    max 50
      (led_util_gcd (led_util_roundup ms_on 100)
        (led_util_roundup ms_off 100)) ≤
      (sysfs_led_generate_ramp_hard_step ms_on ms_off br).delay ∧
    (sysfs_led_generate_ramp_hard_step ms_on ms_off br).steps ≤ 256 ∧
    ((led_util_roundup ms_on 100 +
        (sysfs_led_generate_ramp_hard_step ms_on ms_off br).delay - 1).tdiv
       (sysfs_led_generate_ramp_hard_step ms_on ms_off br).delay).toNat ≤
      (sysfs_led_generate_ramp_hard_step ms_on ms_off br).steps ∧
    (sysfs_led_generate_ramp_hard_step ms_on ms_off br).value =
      List.replicate
        ((led_util_roundup ms_on 100 +
            (sysfs_led_generate_ramp_hard_step ms_on ms_off br).delay -
            1).tdiv
          (sysfs_led_generate_ramp_hard_step ms_on ms_off br).delay).toNat
        255 ++
      List.replicate
        ((sysfs_led_generate_ramp_hard_step ms_on ms_off br).steps -
          ((led_util_roundup ms_on 100 +
              (sysfs_led_generate_ramp_hard_step ms_on ms_off br).delay -
              1).tdiv
            (sysfs_led_generate_ramp_hard_step ms_on ms_off
              br).delay).toNat)
        0 ∧
    (sysfs_led_generate_ramp_hard_step ms_on ms_off br).value.length =
      (sysfs_led_generate_ramp_hard_step ms_on ms_off br).steps := by
  have ha := led_util_roundup_spec ms_on 100 hon (by omega)
  have hc := led_util_roundup_spec ms_off 100 hoff (by omega)
  simp only [sysfs_led_generate_ramp_hard_step, SYSFS_LED_MAX_STEPS,
    SYSFS_LED_STEP_DELAY]
  set a := led_util_roundup ms_on 100 with hadef
  set c := led_util_roundup ms_off 100 with hcdef
  have ha0 : 0 ≤ a := ha.2.2.2
  have hc0 : 0 ≤ c := hc.2.2.2
  set tot := a + c with htot
  set g0 := led_util_gcd a c with hg0def
  have hg0 : 0 < g0 := led_util_gcd_pos a c
  set st1 := if g0 < 50 then (50 : Int) else g0 with hst1
  have hst1_50 : 50 ≤ st1 := by rw [hst1]; split_ifs <;> omega
  have hg0st1 : g0 ≤ st1 := by rw [hst1]; split_ifs <;> omega
  set n1 := (tot + st1 - 1).tdiv st1 with hn1def
  have hn1_0 : 0 ≤ n1 := int_ceil_div_nonneg (by omega) (by omega)
  set st2raw := (tot + 256 - 1).tdiv 256 with hst2raw
  set ntot := if n1 > (256 : Int) then (256 : Int) else n1 with hntot
  set stp :=
    if n1 > (256 : Int) then
      (if st2raw < 50 then (50 : Int) else st2raw)
    else st1 with hstp
  set son := (a + stp - 1).tdiv stp with hson
  by_cases hcap : n1 > (256 : Int)
  · have hntot_eq : ntot = 256 := by rw [hntot, if_pos hcap]
    have hstp_eq : stp = if st2raw < 50 then (50 : Int) else st2raw := by
      rw [hstp, if_pos hcap]
    have h50 : 50 ≤ stp := by rw [hstp_eq]; split_ifs <;> omega
    have hq : tot ≤ st2raw * 256 := int_le_mul_ceil_div (by omega) (by omega)
    have hqs : st2raw ≤ stp := by rw [hstp_eq]; split_ifs <;> omega
    have htot_le : tot ≤ 256 * stp := by omega
    have hson0 : 0 ≤ son := int_ceil_div_nonneg (by omega) (by omega)
    have hson_le_ceil : son ≤ (tot + stp - 1).tdiv stp :=
      int_ceil_div_mono (by omega) (by omega) (by omega)
    have hceil_le : (tot + stp - 1).tdiv stp ≤ 256 :=
      int_ceil_div_le (by omega) (by omega) htot_le
    have htot_gt : 256 * st1 < tot := by
      by_contra hle
      push_neg at hle
      have := int_ceil_div_le (by omega : (0:Int) ≤ tot)
        (by omega : (0:Int) < st1) (by omega : tot ≤ 256 * st1)
      omega
    have hq_gt : st1 < st2raw := by omega
    have hg_le : g0 ≤ stp := by omega
    refine ⟨h50, by omega, by omega, by omega, ?_, ?_⟩
    · rw [Nat.max_eq_right (by omega)]
      exact range_map_ite_replicate _ _ (by omega)
    · simp only [List.length_map, List.length_range]
      omega
  · have hntot_eq : ntot = n1 := by rw [hntot, if_neg hcap]
    have hstp_eq : stp = st1 := by rw [hstp, if_neg hcap]
    have h50 : 50 ≤ stp := by omega
    have hson0 : 0 ≤ son := int_ceil_div_nonneg (by omega) (by omega)
    have hson_le : son ≤ n1 := by
      rw [hson, hstp_eq, hn1def]
      exact int_ceil_div_mono (by omega) (by omega) (by omega)
    have hg_le : g0 ≤ stp := by omega
    refine ⟨h50, by omega, by omega, by omega, ?_, ?_⟩
    · rw [Nat.max_eq_right (by omega)]
      exact range_map_ite_replicate _ _ (by omega)
    · simp only [List.length_map, List.length_range]
      omega

/-! ## C8: ramp generator guarantees -/

/-- C8: for accepted inputs (periods in [0,60000], positive total for the
half sine case) both generators emit at most 256 steps with a per-step
delay of at least 50 ms; `led_util_roundup _ 100` rounds up to the nearest
multiple of 100; the hard step generator uses a step size at least
`max 50 (gcd of the rounded periods)` (the gcd clamped to 50 and possibly
enlarged by the step-count cap) and fills the first
`ceil(rounded_on / step)` samples with 255 and all remaining samples
with 0. -/
theorem sysfs_led_generate_ramp_spec :
    (∀ (sinRise sinFall : Nat → Nat → Nat) (ms_on ms_off : Int)
       (br : sysfs_led_breathe_t),
       0 ≤ ms_on → ms_on ≤ 60000 → 0 ≤ ms_off → ms_off ≤ 60000 →
       0 < ms_on + ms_off →
       (sysfs_led_generate_ramp_half_sin sinRise sinFall ms_on ms_off
          br).steps ≤ 256 ∧
       50 ≤ (sysfs_led_generate_ramp_half_sin sinRise sinFall ms_on ms_off
               br).delay) ∧
    (∀ v : Int, 0 ≤ v →
       v ≤ led_util_roundup v 100 ∧ led_util_roundup v 100 < v + 100 ∧
       (led_util_roundup v 100).tmod 100 = 0) ∧
    (∀ (ms_on ms_off : Int) (br : sysfs_led_breathe_t),
       0 ≤ ms_on → ms_on ≤ 60000 → 0 ≤ ms_off → ms_off ≤ 60000 →
       (sysfs_led_generate_ramp_hard_step ms_on ms_off br).steps ≤ 256 ∧
       50 ≤ (sysfs_led_generate_ramp_hard_step ms_on ms_off br).delay ∧
       max 50
         (led_util_gcd (led_util_roundup ms_on 100)
           (led_util_roundup ms_off 100)) ≤
         (sysfs_led_generate_ramp_hard_step ms_on ms_off br).delay ∧
       ((led_util_roundup ms_on 100 +
           (sysfs_led_generate_ramp_hard_step ms_on ms_off br).delay -
           1).tdiv
          (sysfs_led_generate_ramp_hard_step ms_on ms_off
            br).delay).toNat ≤
         (sysfs_led_generate_ramp_hard_step ms_on ms_off br).steps ∧
       (sysfs_led_generate_ramp_hard_step ms_on ms_off br).value =
         List.replicate
           ((led_util_roundup ms_on 100 +
               (sysfs_led_generate_ramp_hard_step ms_on ms_off br).delay -
               1).tdiv
             (sysfs_led_generate_ramp_hard_step ms_on ms_off
               br).delay).toNat
           255 ++
         List.replicate
           ((sysfs_led_generate_ramp_hard_step ms_on ms_off br).steps -
             ((led_util_roundup ms_on 100 +
                 (sysfs_led_generate_ramp_hard_step ms_on ms_off
                   br).delay - 1).tdiv
               (sysfs_led_generate_ramp_hard_step ms_on ms_off
                 br).delay).toNat)
           0) := by
  refine ⟨?_, ?_, ?_⟩
  · intro sinRise sinFall ms_on ms_off br h1 h2 h3 h4 h5
    have h := sysfs_led_generate_ramp_half_sin_bounds sinRise sinFall
      ms_on ms_off br h1 h3 h5
    exact ⟨h.2.1, h.1⟩
  · intro v hv
    have h := led_util_roundup_spec v 100 hv (by omega)
    exact ⟨h.1, h.2.1, h.2.2.1⟩
  · intro ms_on ms_off br h1 h2 h3 h4
    have h := sysfs_led_generate_ramp_hard_step_bounds ms_on ms_off br h1 h3
    exact ⟨h.2.2.1, h.1, h.2.1, h.2.2.2.1, h.2.2.2.2.1⟩

/-- C8 witness: the theorem applied at the spec's example inputs
(`on=500, off=500` for half sine, `on=200, off=300` for hard step). -/
theorem sysfs_led_generate_ramp_spec_witness :
    ((sysfs_led_generate_ramp_half_sin (fun _ _ => 0) (fun _ _ => 0) 500 500
        ⟨0, 0, 0, []⟩).steps ≤ 256 ∧
     50 ≤ (sysfs_led_generate_ramp_half_sin (fun _ _ => 0) (fun _ _ => 0)
             500 500 ⟨0, 0, 0, []⟩).delay) ∧
    ((100 : Int) ≤ led_util_roundup 100 100 ∧
     led_util_roundup 100 100 < 100 + 100 ∧
     (led_util_roundup 100 100).tmod 100 = 0) ∧
    ((sysfs_led_generate_ramp_hard_step 200 300 ⟨0, 0, 0, []⟩).steps ≤ 256 ∧
     50 ≤ (sysfs_led_generate_ramp_hard_step 200 300 ⟨0, 0, 0, []⟩).delay ∧
     max 50
       (led_util_gcd (led_util_roundup 200 100)
         (led_util_roundup 300 100)) ≤
       (sysfs_led_generate_ramp_hard_step 200 300 ⟨0, 0, 0, []⟩).delay ∧
     ((led_util_roundup 200 100 +
         (sysfs_led_generate_ramp_hard_step 200 300 ⟨0, 0, 0, []⟩).delay -
         1).tdiv
        (sysfs_led_generate_ramp_hard_step 200 300
          ⟨0, 0, 0, []⟩).delay).toNat ≤
       (sysfs_led_generate_ramp_hard_step 200 300 ⟨0, 0, 0, []⟩).steps ∧
     (sysfs_led_generate_ramp_hard_step 200 300 ⟨0, 0, 0, []⟩).value =
       List.replicate
         ((led_util_roundup 200 100 +
             (sysfs_led_generate_ramp_hard_step 200 300
               ⟨0, 0, 0, []⟩).delay - 1).tdiv
           (sysfs_led_generate_ramp_hard_step 200 300
             ⟨0, 0, 0, []⟩).delay).toNat
         255 ++
       List.replicate
         ((sysfs_led_generate_ramp_hard_step 200 300 ⟨0, 0, 0, []⟩).steps -
           ((led_util_roundup 200 100 +
               (sysfs_led_generate_ramp_hard_step 200 300
                 ⟨0, 0, 0, []⟩).delay - 1).tdiv
             (sysfs_led_generate_ramp_hard_step 200 300
               ⟨0, 0, 0, []⟩).delay).toNat)
         0) :=
  ⟨sysfs_led_generate_ramp_spec.1 (fun _ _ => 0) (fun _ _ => 0) 500 500
     ⟨0, 0, 0, []⟩ (by decide) (by decide) (by decide) (by decide)
     (by decide),
   sysfs_led_generate_ramp_spec.2.1 100 (by decide),
   sysfs_led_generate_ramp_spec.2.2 200 300 ⟨0, 0, 0, []⟩ (by decide)
     (by decide) (by decide) (by decide)⟩

/-! ## C10: ramp generation safety -/

/-- C10: ramp generation performs no division by zero and stays inside
the 256-entry sample buffer.  For the half sine generator (non-negative
periods, positive total) the total-period divisor is nonzero and the
step-size divisor is at least 50 (the per-loop divisors `steps_on` /
`steps_off` are the loop bounds themselves, so a division by them only
runs when they are positive); for the hard step generator (any
non-negative periods, both zero included) the gcd is never zero and the
step divisor is at least 50; both generators write exactly `steps`
samples with `steps` at most 256, so every buffer index is below 256. -/
theorem sysfs_led_generate_ramp_safety_spec :
    (∀ (sinRise sinFall : Nat → Nat → Nat) (ms_on ms_off : Int)
       (br : sysfs_led_breathe_t),
       0 ≤ ms_on → 0 ≤ ms_off → 0 < ms_on + ms_off →
       ms_on + ms_off ≠ 0 ∧
       50 ≤ (sysfs_led_generate_ramp_half_sin sinRise sinFall ms_on ms_off
               br).delay ∧
       (sysfs_led_generate_ramp_half_sin sinRise sinFall ms_on ms_off
          br).value.length =
         (sysfs_led_generate_ramp_half_sin sinRise sinFall ms_on ms_off
           br).steps ∧
       (sysfs_led_generate_ramp_half_sin sinRise sinFall ms_on ms_off
          br).value.length ≤ 256) ∧
    (∀ (ms_on ms_off : Int) (br : sysfs_led_breathe_t),
       0 ≤ ms_on → 0 ≤ ms_off →
       led_util_gcd (led_util_roundup ms_on 100)
           (led_util_roundup ms_off 100) ≠ 0 ∧
       50 ≤ (sysfs_led_generate_ramp_hard_step ms_on ms_off br).delay ∧
       (sysfs_led_generate_ramp_hard_step ms_on ms_off br).value.length =
         (sysfs_led_generate_ramp_hard_step ms_on ms_off br).steps ∧
       (sysfs_led_generate_ramp_hard_step ms_on ms_off
          br).value.length ≤ 256) ∧
    (∀ a b : Int, led_util_gcd a b ≠ 0) := by
  refine ⟨?_, ?_, fun a b => by have := led_util_gcd_pos a b; omega⟩
  · intro sinRise sinFall ms_on ms_off br h1 h2 h3
    have h := sysfs_led_generate_ramp_half_sin_bounds sinRise sinFall
      ms_on ms_off br h1 h2 h3
    refine ⟨by omega, h.1, h.2.2, ?_⟩
    rw [h.2.2]
    exact h.2.1
  · intro ms_on ms_off br h1 h2
    have h := sysfs_led_generate_ramp_hard_step_bounds ms_on ms_off br h1 h2
    have hg := led_util_gcd_pos (led_util_roundup ms_on 100)
      (led_util_roundup ms_off 100)
    refine ⟨by omega, h.1, h.2.2.2.2.2, ?_⟩
    rw [h.2.2.2.2.2]
    exact h.2.2.1

/-- C10 witness: the safety properties applied at concrete inputs,
including the all-zero input of the hard step generator. -/
theorem sysfs_led_generate_ramp_safety_spec_witness :
    ((0 : Int) + 500 ≠ 0 ∧
     50 ≤ (sysfs_led_generate_ramp_half_sin (fun _ _ => 0) (fun _ _ => 0)
             0 500 ⟨0, 0, 0, []⟩).delay ∧
     (sysfs_led_generate_ramp_half_sin (fun _ _ => 0) (fun _ _ => 0) 0 500
        ⟨0, 0, 0, []⟩).value.length =
       (sysfs_led_generate_ramp_half_sin (fun _ _ => 0) (fun _ _ => 0) 0 500
         ⟨0, 0, 0, []⟩).steps ∧
     (sysfs_led_generate_ramp_half_sin (fun _ _ => 0) (fun _ _ => 0) 0 500
        ⟨0, 0, 0, []⟩).value.length ≤ 256) ∧
    (led_util_gcd (led_util_roundup 0 100) (led_util_roundup 0 100) ≠ 0 ∧
     50 ≤ (sysfs_led_generate_ramp_hard_step 0 0 ⟨0, 0, 0, []⟩).delay ∧
     (sysfs_led_generate_ramp_hard_step 0 0
        ⟨0, 0, 0, []⟩).value.length =
       (sysfs_led_generate_ramp_hard_step 0 0 ⟨0, 0, 0, []⟩).steps ∧
     (sysfs_led_generate_ramp_hard_step 0 0
        ⟨0, 0, 0, []⟩).value.length ≤ 256) ∧
    led_util_gcd 0 0 ≠ 0 :=
  ⟨sysfs_led_generate_ramp_safety_spec.1 (fun _ _ => 0) (fun _ _ => 0) 0 500
     ⟨0, 0, 0, []⟩ (by decide) (by decide) (by decide),
   sysfs_led_generate_ramp_safety_spec.2.1 0 0 ⟨0, 0, 0, []⟩ (by decide)
     (by decide),
   sysfs_led_generate_ramp_safety_spec.2.2 0 0⟩
